import Mathlib

/-!
Shallow embedding of the ydb-kubernetes-operator reconciliation core
(`controllers/storage/sync.go`, `controllers/database/sync.go`,
`pkg/resources`, `api/v1alpha1/database_defaults.go`).

External collaborators (the object store, remote command execution, the
health probe, the tenant-management call) are modelled as explicit inputs
to each phase function; "the store" is the persisted custom resource,
threaded through every function that can write status.  Go `nil` condition
slices and empty slices behave identically under the `meta` helpers, so
conditions are plain lists here.
-/

/-- Embedding of `metav1.Condition`: `{Type, Status, Reason, Message}`. -/
structure Condition where
  condType : String
  status : String
  reason : String
  message : String
deriving DecidableEq, Repr

/-- Embedding of `meta.IsStatusConditionTrue`: the first condition with the given type
has status `"True"`. -/
def isStatusConditionTrue (conds : List Condition) (t : String) : Bool :=
  match conds.find? (fun c => c.condType == t) with
  | some c => c.status == "True"
  | none => false

/-- Embedding of `meta.SetStatusCondition`: update the first condition with the given
type in place, or append when absent. -/
def setStatusCondition : List Condition → Condition → List Condition
  | [], n => [n]
  | c :: rest, n =>
    if c.condType == n.condType then
      { c with status := n.status, reason := n.reason, message := n.message } :: rest
    else
      c :: setStatusCondition rest n

/-- Embedding of `ctrl.Result`: requeue flag plus requeue-after delay (seconds). -/
structure CtrlResult where
  requeue : Bool
  requeueAfter : Nat
deriving DecidableEq, Repr

/-- The `(ctrl.Result, error)` pair every phase returns. -/
structure Outcome where
  result : CtrlResult
  err : Option String
deriving DecidableEq, Repr

/-- Embedding of `ctrl.Result.IsZero`. -/
def CtrlResult.IsZero (r : CtrlResult) : Bool :=
  !r.requeue && r.requeueAfter == 0

/-- The short-circuit test `err != nil || !result.IsZero()` used by `Sync`. -/
def Outcome.stops (o : Outcome) : Bool :=
  o.err.isSome || !o.result.IsZero

/-- Modelled from the spec: the `controllers` helper package is not under
src/; per the spec the core returns a three-way result
(success/continue, requeue-after(duration), fail(error)).  `Ok` is
`(ctrl.Result{}, nil)`. -/
def Controllers.Ok : Outcome := ⟨⟨false, 0⟩, none⟩

/-- Modelled from the spec: `controllers.NoRequeue(err)` is
`(ctrl.Result{}, err)` — an error with no requeue delay (framework
backoff). -/
def Controllers.NoRequeue (e : String) : Outcome := ⟨⟨false, 0⟩, some e⟩

/-- Modelled from the spec: `controllers.RequeueAfter(d, err)` is
`(ctrl.Result{RequeueAfter: d}, err)` — a timed requeue. -/
def Controllers.RequeueAfter (d : Nat) (e : Option String) : Outcome := ⟨⟨false, d⟩, e⟩

/-- Modelled from the spec: `controllers.RequeueImmediately()` is
`(ctrl.Result{Requeue: true}, nil)`. -/
def Controllers.RequeueImmediately : Outcome := ⟨⟨true, 0⟩, none⟩

/-- Injected failures for the two object-store operations inside
`setState` (re-fetch of the CR, then the status update). -/
structure KVEnv where
  crGetErr : Bool
  statusUpdateErr : Bool
deriving DecidableEq, Repr

/-- Result of an object-store `Get`: k8s distinguishes not-found from
other errors (`errors.IsNotFound`). -/
inductive GetOutcome (α : Type) where
  | notFound
  | fetchErr (e : String)
  | found (v : α)
deriving DecidableEq, Repr

/-- Embedding of `appsv1.StatefulSet`, restricted to the one status field the
controllers read. -/
structure StatefulSet where
  statusReplicas : Int
deriving DecidableEq, Repr

/-- Embedding of `corev1.Pod`, restricted to the one status field the controllers
read. -/
structure Pod where
  phase : String
deriving DecidableEq, Repr

/-- Contents of a child object in the object store (opaque). -/
abbrev Obj := String

/-- The children section of the object store, keyed by object name. -/
def CStore := String → Option Obj

/-- Embedding of `controllerutil.OperationResult` as used by `handleResourcesSync`. -/
inductive OperationResult where
  | opNone
  | created
  | updated
deriving DecidableEq, Repr

/-- Modelled from the spec: a resource builder's `Placeholder`/`Build`
pair is not under src/; per the spec a builder yields a placeholder keyed
by deterministic identity and a mutation that populates the full desired
shape (or errors), owner linkage included. -/
structure ResourceBuilder where
  key : String
  build : Except String Obj
deriving Repr

/-- Modelled from the spec: `ctrl.CreateOrUpdate` is not under src/; it
fetches the object by key, creates it (after mutation) when absent, and
otherwise applies the mutation and updates only on change, reporting
whether a create/update/no-op happened.  A mutation error aborts before
persistence. -/
def createOrUpdate (s : CStore) (key : String) (build : Except String Obj) :
    Except String (OperationResult × CStore) :=
  match s key with
  | none =>
    match build with
    | .error e => .error e
    | .ok obj => .ok (OperationResult.created, fun k => if k = key then some obj else s k)
  | some v =>
    match build with
    | .error e => .error e
    | .ok obj =>
      if obj = v then .ok (OperationResult.opNone, s)
      else .ok (OperationResult.updated, fun k => if k = key then some obj else s k)

/-- The builder loop of `handleResourcesSync` (identical in the storage
and database packages): first error aborts; returns the error if any, the
resulting store, and the number of creates performed. -/
def resourcesSyncLoop : List ResourceBuilder → CStore → Option String × CStore × Nat
  | [], s => (none, s, 0)
  | b :: rest, s =>
    match createOrUpdate s b.key b.build with
    | .error e => (some e, s, 0)
    | .ok (r, s2) =>
      let out := resourcesSyncLoop rest s2
      (out.1, out.2.1, (if r = OperationResult.created then 1 else 0) + out.2.2)

/-- Outcome of `handleResourcesSync`. -/
structure ResSyncOut where
  res : Outcome
  children : CStore
  creates : Nat

/-- Embedding of `handleResourcesSync` (identical code in the storage and database
packages): run every builder through `CreateOrUpdate`; an error returns
`NoRequeue(err)`; if any child was freshly created, requeue immediately,
else continue. -/
def handleResourcesSync (builders : List ResourceBuilder) (children : CStore) : ResSyncOut :=
  let out := resourcesSyncLoop builders children
  match out.1 with
  | some e => ⟨Controllers.NoRequeue e, out.2.1, out.2.2⟩
  | none =>
    ⟨if out.2.2 ≠ 0 then Controllers.RequeueImmediately else Controllers.Ok, out.2.1, out.2.2⟩

/-- Embedding of the `Storage` status: `State` plus the condition sequence. -/
structure StorageStatus where
  state : String
  conditions : List Condition
deriving DecidableEq, Repr

/-- Embedding of `StorageSpec`, restricted to the fields the controller reads. -/
structure StorageSpec where
  nodes : Int
deriving DecidableEq, Repr

/-- The `Storage` custom resource. -/
structure Storage where
  name : String
  ns : String
  spec : StorageSpec
  status : StorageStatus
deriving DecidableEq, Repr

/-- The `StorageInitializedCondition` constant. -/
def StorageInitializedCondition : String := "StorageInitialized"

namespace storage

/-- The external inputs of the storage `waitForStatefulSetToScale`: the
`Get` of the workload StatefulSet and the label-filtered pod `List`. -/
structure ScaleEnv where
  stsGet : GetOutcome StatefulSet
  podList : Except String (List Pod)
deriving Repr

/-- Results of the two `ExecInPod` administrative commands of
`runDefineBoxScript` (`none` = success). -/
structure ExecEnv where
  exec1Err : Option String
  exec2Err : Option String
deriving DecidableEq, Repr

/-- Embedding of `setState` (storage): re-fetch the CR, copy in `State` and
`Conditions` from the working copy, persist the status subresource; a
fetch or persist failure leaves the store unchanged and surfaces the
error. -/
def setState (kv : KVEnv) (store : Storage) (b : Storage) : Option String × Storage :=
  if kv.crGetErr then (some "failed fetching CR before status update", store)
  else if kv.statusUpdateErr then (some "failed setting status", store)
  else (none, { store with status := { state := b.status.state, conditions := b.status.conditions } })

/-- Output of a storage phase that may write status: outcome, store
after any persisted writes, and the in-memory working copy. -/
structure PhaseOut where
  res : Outcome
  store : Storage
  b : Storage
deriving Repr

/-- Embedding of `waitForStatefulSetToScale` (storage): not-found workload continues;
a get or list failure returns `NoRequeue(err)`; a running-pod count
different from `Spec.Nodes` persists `State=Provisioning` and requeues
after 10s; a matching count with `StorageInitialized=True` and
`State != Ready` persists `State=Ready` and continues. -/
def waitForStatefulSetToScale (senv : ScaleEnv) (kv : KVEnv) (store : Storage) (b : Storage) :
    PhaseOut :=
  match senv.stsGet with
  | .notFound => ⟨Controllers.Ok, store, b⟩
  | .fetchErr e => ⟨Controllers.NoRequeue e, store, b⟩
  | .found _ =>
    match senv.podList with
    | .error e => ⟨Controllers.NoRequeue e, store, b⟩
    | .ok pods =>
      let runningPods := (pods.filter (fun p => p.phase == "Running")).length
      if (runningPods : Int) != b.spec.nodes then
        let b2 := { b with status := { b.status with state := "Provisioning" } }
        match setState kv store b2 with
        | (some e, store2) => ⟨Controllers.NoRequeue e, store2, b2⟩
        | (none, store2) => ⟨Controllers.RequeueAfter 10 none, store2, b2⟩
      else
        if b.status.state != "Ready" &&
            isStatusConditionTrue b.status.conditions StorageInitializedCondition then
          let b2 := { b with status := { b.status with state := "Ready" } }
          match setState kv store b2 with
          | (some e, store2) => ⟨Controllers.NoRequeue e, store2, b2⟩
          | (none, store2) => ⟨Controllers.Ok, store2, b2⟩
        else ⟨Controllers.Ok, store, b⟩

/-- Embedding of `waitForHealthCheck`: a non-nil health probe outcome requeues after
30s; nil continues; no status field is touched either way. -/
def waitForHealthCheck (healthErr : Option String) (store : Storage) (b : Storage) : PhaseOut :=
  match healthErr with
  | some e => ⟨Controllers.RequeueAfter 30 (some e), store, b⟩
  | none => ⟨Controllers.Ok, store, b⟩

/-- Output of `runDefineBoxScript`: phase output plus the number of
`ExecInPod` invocations performed. -/
structure InitOut where
  res : Outcome
  store : Storage
  b : Storage
  execCalls : Nat
deriving Repr

/-- The `StorageInitialized=True` condition written by
`runDefineBoxScript`. -/
def storageInitializedTrue : Condition :=
  ⟨StorageInitializedCondition, "True", "StorageInitialized", "Storage initialized successfully"⟩

/-- Embedding of `runDefineBoxScript`: no-op when `StorageInitialized` is already
true; otherwise run the two administrative commands in order, requeueing
after 30s on either failure; on success set the condition, persist
(a persist failure returns `NoRequeue(err)`), and requeue immediately. -/
def runDefineBoxScript (eenv : ExecEnv) (kv : KVEnv) (store : Storage) (b : Storage) : InitOut :=
  if isStatusConditionTrue b.status.conditions StorageInitializedCondition then
    ⟨Controllers.Ok, store, b, 0⟩
  else
    match eenv.exec1Err with
    | some e => ⟨Controllers.RequeueAfter 30 (some e), store, b, 1⟩
    | none =>
      match eenv.exec2Err with
      | some e => ⟨Controllers.RequeueAfter 30 (some e), store, b, 2⟩
      | none =>
        let b2 := { b with status :=
          { b.status with conditions := setStatusCondition b.status.conditions storageInitializedTrue } }
        match setState kv store b2 with
        | (some e, store2) => ⟨Controllers.NoRequeue e, store2, b2, 2⟩
        | (none, store2) => ⟨Controllers.RequeueImmediately, store2, b2, 2⟩

/-- All external inputs of one storage `Sync` invocation. -/
structure StorageEnv where
  scale : ScaleEnv
  kvScale : KVEnv
  builders : List ResourceBuilder
  healthErr : Option String
  execEnv : ExecEnv
  kvInit : KVEnv

/-- Output of one storage `Sync` invocation. -/
structure StorageSyncOut where
  res : Outcome
  store : Storage
  children : CStore
  b : Storage
  execCalls : Nat
  creates : Nat

/-- The storage `Sync` phase sequence: scale-wait, resource sync, health
check, bootstrap script; stop at the first phase whose result has an
error or a non-zero `ctrl.Result`.  `NewCluster` deep-copies the CR (spec
defaults are consumed as already resolved) and `SetStatusOnFirstReconcile`
makes a nil condition slice empty (the identity here). -/
def Sync (env : StorageEnv) (store : Storage) (children : CStore) : StorageSyncOut :=
  let b := store
  let w := waitForStatefulSetToScale env.scale env.kvScale store b
  if w.res.stops then ⟨w.res, w.store, children, w.b, 0, 0⟩
  else
    let rs := handleResourcesSync env.builders children
    if rs.res.stops then ⟨rs.res, w.store, rs.children, w.b, 0, rs.creates⟩
    else
      let hc := waitForHealthCheck env.healthErr w.store w.b
      if hc.res.stops then ⟨hc.res, hc.store, rs.children, hc.b, 0, rs.creates⟩
      else
        let ini := runDefineBoxScript env.execEnv env.kvInit hc.store hc.b
        if ini.res.stops then ⟨ini.res, ini.store, rs.children, ini.b, ini.execCalls, rs.creates⟩
        else ⟨Controllers.Ok, ini.store, rs.children, ini.b, ini.execCalls, rs.creates⟩

end storage

/-- Embedding of the `Image` spec fields read by `SetDatabaseSpecDefaults`; the pull
policy is the k8s policy name as a string. -/
structure ImageSpec where
  name : String
  pullPolicyName : Option String
deriving DecidableEq, Repr

/-- Embedding of `StorageClusterRef`: `{Name, Namespace}`. -/
structure StorageRef where
  name : String
  ns : String
deriving DecidableEq, Repr

/-- Embedding of `DatabaseSpec`, restricted to the fields the controller and the
defaulting function read. -/
structure DatabaseSpec where
  nodes : Int
  storageClusterRef : StorageRef
  image : ImageSpec
  ydbVersion : String
deriving DecidableEq, Repr

/-- Embedding of the `Database` status: `State` plus the condition sequence. -/
structure DatabaseStatus where
  state : String
  conditions : List Condition
deriving DecidableEq, Repr

/-- The `Database` custom resource. -/
structure Database where
  name : String
  ns : String
  spec : DatabaseSpec
  status : DatabaseStatus
deriving DecidableEq, Repr

namespace v1alpha1

/-- Embedding of `SetDatabaseSpecDefaults` (`api/v1alpha1/database_defaults.go`),
written as a pure function on the spec.  The constants `ImagePathFormat`,
`RegistryPath` and `DefaultTag` are declared outside src/, so the image
formatter `fmt.Sprintf(ImagePathFormat, RegistryPath, tag)` is abstracted
as the parameter `imagePathFormat` and the default tag as `defaultTag`;
`v1.PullIfNotPresent` is the string `"IfNotPresent"`. -/
def SetDatabaseSpecDefaults (imagePathFormat : String → String) (defaultTag : String)
    (ydbCr : Database) (ydbSpec : DatabaseSpec) : DatabaseSpec :=
  let s1 := if ydbSpec.storageClusterRef.ns = "" then
      { ydbSpec with storageClusterRef := { ydbSpec.storageClusterRef with ns := ydbCr.ns } }
    else ydbSpec
  let tag := if s1.ydbVersion = "" then defaultTag else s1.ydbVersion
  let s2 := if s1.image.name = "" then
      { s1 with image := { s1.image with name := imagePathFormat tag } }
    else s1
  if s2.image.pullPolicyName = none then
    { s2 with image := { s2.image with pullPolicyName := some "IfNotPresent" } }
  else s2

end v1alpha1

namespace database

/-- The `ConditionTenantInitialized` constant. -/
def ConditionTenantInitialized : String := "TenantInitialized"

/-- The `DefaultRequeueDelay` constant (10s). -/
def DefaultRequeueDelay : Nat := 10

/-- The `TenantCreationRequeueDelay` constant (30s). -/
def TenantCreationRequeueDelay : Nat := 30

/-- The `StorageAwaitRequeueDelay` constant (60s). -/
def StorageAwaitRequeueDelay : Nat := 60

/-- Embedding of `setState` (database): same shape as the storage one. -/
def setState (kv : KVEnv) (store : Database) (b : Database) : Option String × Database :=
  if kv.crGetErr then (some "failed fetching CR before status update", store)
  else if kv.statusUpdateErr then (some "failed setting status", store)
  else (none, { store with status := { state := b.status.state, conditions := b.status.conditions } })

/-- Embedding of `waitForClusterResource`: fetch the referenced Storage resource
(not-found counts as a fetch error); any error requeues after 60s with
the error as cause; a fetched resource whose `State` is not `Ready`
requeues after 60s (the `err` forwarded there is the nil error of the
successful `Get`); otherwise continue.  No status is written. -/
def waitForClusterResource (storageGet : Except String Storage) (_db : Database) : Outcome :=
  match storageGet with
  | .error e => Controllers.RequeueAfter StorageAwaitRequeueDelay (some e)
  | .ok found =>
    if found.status.state != "Ready" then
      Controllers.RequeueAfter StorageAwaitRequeueDelay none
    else Controllers.Ok

/-- Output of a database phase that may write status. -/
structure PhaseOut where
  res : Outcome
  store : Database
  db : Database
deriving Repr

/-- Embedding of `waitForStatefulSetToScale` (database): not-found workload continues;
a get failure returns `NoRequeue(err)`; a `Status.Replicas` different
from `Spec.Nodes` persists `State=Provisioning` and requeues after 10s; a
matching count with `TenantInitialized=True` and `State != Ready`
persists `State=Ready` and continues. -/
def waitForStatefulSetToScale (stsGet : GetOutcome StatefulSet) (kv : KVEnv)
    (store : Database) (db : Database) : PhaseOut :=
  match stsGet with
  | .notFound => ⟨Controllers.Ok, store, db⟩
  | .fetchErr e => ⟨Controllers.NoRequeue e, store, db⟩
  | .found found =>
    if found.statusReplicas != db.spec.nodes then
      let db2 := { db with status := { db.status with state := "Provisioning" } }
      match setState kv store db2 with
      | (some e, store2) => ⟨Controllers.NoRequeue e, store2, db2⟩
      | (none, store2) => ⟨Controllers.RequeueAfter DefaultRequeueDelay none, store2, db2⟩
    else
      if db.status.state != "Ready" &&
          isStatusConditionTrue db.status.conditions ConditionTenantInitialized then
        let db2 := { db with status := { db.status with state := "Ready" } }
        match setState kv store db2 with
        | (some e, store2) => ⟨Controllers.NoRequeue e, store2, db2⟩
        | (none, store2) => ⟨Controllers.Ok, store2, db2⟩
      else ⟨Controllers.Ok, store, db⟩

/-- The `TenantInitialized=True` condition written by
`handleTenantCreation`. -/
def tenantInitializedTrue : Condition :=
  ⟨ConditionTenantInitialized, "True", "TenantInitialized", "Tenant creation is complete"⟩

/-- Output of `handleTenantCreation`: phase output plus the number of
tenant-creation calls performed. -/
structure TenantOut where
  res : Outcome
  store : Database
  db : Database
  createCalls : Nat
deriving Repr

/-- Embedding of `handleTenantCreation`: set `State=Initializing` and persist (a
persist failure returns `NoRequeue(err)` before the tenant call); a
tenant-creation failure requeues after 30s; on success set
`TenantInitialized=True`, persist, and requeue immediately. -/
def handleTenantCreation (tenantCreateErr : Option String) (kv1 kv2 : KVEnv)
    (store : Database) (db : Database) : TenantOut :=
  let db1 := { db with status := { db.status with state := "Initializing" } }
  match setState kv1 store db1 with
  | (some e, store1) => ⟨Controllers.NoRequeue e, store1, db1, 0⟩
  | (none, store1) =>
    match tenantCreateErr with
    | some e => ⟨Controllers.RequeueAfter TenantCreationRequeueDelay (some e), store1, db1, 1⟩
    | none =>
      let conds2 := setStatusCondition db1.status.conditions tenantInitializedTrue
      let db2 := { db1 with status := { db1.status with conditions := conds2 } }
      match setState kv2 store1 db2 with
      | (some e, store2) => ⟨Controllers.NoRequeue e, store2, db2, 1⟩
      | (none, store2) => ⟨Controllers.RequeueImmediately, store2, db2, 1⟩

/-- All external inputs of one database `Sync` invocation. -/
structure DbEnv where
  kv0 : KVEnv
  storageGet : Except String Storage
  stsGet : GetOutcome StatefulSet
  kvScale : KVEnv
  builders : List ResourceBuilder
  tenantCreateErr : Option String
  kvTenant1 : KVEnv
  kvTenant2 : KVEnv

/-- Output of one database `Sync` invocation, with observables that
record which phases were reached. -/
structure DbSyncOut where
  res : Outcome
  store : Database
  children : CStore
  db : Database
  tenantCalls : Nat
  creates : Nat
  reachedScale : Bool
  reachedResourcesSync : Bool
  reachedTenant : Bool

/-- The database `Sync` phase sequence: status seed (its error is
ignored by the source), dependency wait, scale wait, resource sync, and —
only when `TenantInitialized` is not true — tenant creation.
`NewDatabase` deep-copies the CR (spec defaults are consumed as already
resolved, per the spec's dependency contract) and
`SetStatusOnFirstReconcile` makes a nil condition slice empty (the
identity here). -/
def Sync (env : DbEnv) (store : Database) (children : CStore) : DbSyncOut :=
  let db := store
  let store0 := (setState env.kv0 store db).2
  let r1 := waitForClusterResource env.storageGet db
  if r1.stops then ⟨r1, store0, children, db, 0, 0, false, false, false⟩
  else
    let w := waitForStatefulSetToScale env.stsGet env.kvScale store0 db
    if w.res.stops then ⟨w.res, w.store, children, w.db, 0, 0, true, false, false⟩
    else
      let rs := handleResourcesSync env.builders children
      if rs.res.stops then ⟨rs.res, w.store, rs.children, w.db, 0, rs.creates, true, true, false⟩
      else
        if !isStatusConditionTrue w.db.status.conditions ConditionTenantInitialized then
          let tc := handleTenantCreation env.tenantCreateErr env.kvTenant1 env.kvTenant2 w.store w.db
          if tc.res.stops then
            ⟨tc.res, tc.store, rs.children, tc.db, tc.createCalls, rs.creates, true, true, true⟩
          else ⟨Controllers.Ok, tc.store, rs.children, tc.db, tc.createCalls, rs.creates, true, true, true⟩
        else ⟨Controllers.Ok, w.store, rs.children, w.db, 0, rs.creates, true, true, false⟩

end database

/-- The persisted state a database reconciliation trace evolves: the
`Database` CR and the children section of the object store. -/
structure DbState where
  cr : Database
  children : CStore

/-- One control-loop turn: the dispatcher re-reads the CR from the store
and invokes `Sync` on it. -/
def dbStep (env : database.DbEnv) (st : DbState) : DbState :=
  let out := database.Sync env st.cr st.children
  ⟨out.store, out.children⟩

/-- Final state after a sequence of control-loop turns. -/
def dbRun : List database.DbEnv → DbState → DbState
  | [], st => st
  | e :: es, st => dbRun es (dbStep e st)

/-- All states visited by a sequence of control-loop turns, the initial
one included. -/
def dbStates : List database.DbEnv → DbState → List DbState
  | [], st => [st]
  | e :: es, st => st :: dbStates es (dbStep e st)

/-- Number of `false → true` transitions in a boolean sequence. -/
def risingEdges : List Bool → Nat
  | [] => 0
  | [_] => 0
  | a :: b :: t => (if !a && b then 1 else 0) + risingEdges (b :: t)

/-- Modelled from the spec: the database wait-for-scale phase as claim C3
and the spec sentence describe it — the pattern of the storage phase,
counting member pods in a running execution phase and comparing that
count to the Database's `Spec.Nodes`, with the Ready transition gated on
`TenantInitialized`.  Used only to compare against the implemented
phase. -/
def databaseScalePerSpec (stsGet : GetOutcome StatefulSet) (podList : Except String (List Pod))
    (kv : KVEnv) (store : Database) (db : Database) : database.PhaseOut :=
  match stsGet with
  | .notFound => ⟨Controllers.Ok, store, db⟩
  | .fetchErr e => ⟨Controllers.NoRequeue e, store, db⟩
  | .found _ =>
    match podList with
    | .error e => ⟨Controllers.NoRequeue e, store, db⟩
    | .ok pods =>
      let runningPods := (pods.filter (fun p => p.phase == "Running")).length
      if (runningPods : Int) != db.spec.nodes then
        let db2 := { db with status := { db.status with state := "Provisioning" } }
        match database.setState kv store db2 with
        | (some e, store2) => ⟨Controllers.NoRequeue e, store2, db2⟩
        | (none, store2) => ⟨Controllers.RequeueAfter database.DefaultRequeueDelay none, store2, db2⟩
      else
        if db.status.state != "Ready" &&
            isStatusConditionTrue db.status.conditions database.ConditionTenantInitialized then
          let db2 := { db with status := { db.status with state := "Ready" } }
          match database.setState kv store db2 with
          | (some e, store2) => ⟨Controllers.NoRequeue e, store2, db2⟩
          | (none, store2) => ⟨Controllers.Ok, store2, db2⟩
        else ⟨Controllers.Ok, store, db⟩

@[simp] theorem stops_Ok : Controllers.Ok.stops = false := rfl

@[simp] theorem stops_NoRequeue (e : String) : (Controllers.NoRequeue e).stops = true := rfl

@[simp] theorem stops_RequeueAfter (d : Nat) (e : Option String) :
    (Controllers.RequeueAfter d e).stops = (e.isSome || !(d == 0)) := by
  simp [Controllers.RequeueAfter, Outcome.stops, CtrlResult.IsZero]

@[simp] theorem stops_RequeueImmediately : Controllers.RequeueImmediately.stops = true := rfl

/-- The status seed of the database `Sync` writes the CR's own status
back, so a successful write leaves the store unchanged. -/
@[simp] theorem database_setState_self (kv : KVEnv) (s : Database) :
    (database.setState kv s s).2 = s := by
  unfold database.setState
  split
  · rfl
  · split <;> rfl

/-- Setting a condition with status `"True"` makes
`isStatusConditionTrue` hold for that type. -/
theorem isTrue_setStatusCondition (conds : List Condition) (t r m : String) :
    isStatusConditionTrue (setStatusCondition conds ⟨t, "True", r, m⟩) t = true := by
  induction conds with
  | nil => simp [setStatusCondition, isStatusConditionTrue, List.find?]
  | cons c rest ih =>
    by_cases h : c.condType == t
    · simp [setStatusCondition, isStatusConditionTrue, List.find?, h]
    · simp only [setStatusCondition, h, if_false, Bool.false_eq_true, if_neg]
      simpa [isStatusConditionTrue, List.find?, h] using ih

/-- C9: `SetDatabaseSpecDefaults` is idempotent and only fills absent
fields; an empty `StorageClusterRef.Namespace` becomes the Database's own
namespace. -/
theorem setDatabaseSpecDefaults_idempotent (f : String → String) (dt : String)
    (cr : Database) (s : DatabaseSpec) :
    v1alpha1.SetDatabaseSpecDefaults f dt cr (v1alpha1.SetDatabaseSpecDefaults f dt cr s) =
      v1alpha1.SetDatabaseSpecDefaults f dt cr s
    ∧ (s.storageClusterRef.ns ≠ "" →
        (v1alpha1.SetDatabaseSpecDefaults f dt cr s).storageClusterRef = s.storageClusterRef)
    ∧ (s.image.name ≠ "" →
        (v1alpha1.SetDatabaseSpecDefaults f dt cr s).image.name = s.image.name)
    ∧ (s.image.pullPolicyName ≠ none →
        (v1alpha1.SetDatabaseSpecDefaults f dt cr s).image.pullPolicyName = s.image.pullPolicyName)
    ∧ (s.storageClusterRef.ns = "" →
        (v1alpha1.SetDatabaseSpecDefaults f dt cr s).storageClusterRef.ns = cr.ns) := by
  obtain ⟨nodes, ⟨rn, rns⟩, ⟨iname, ipull⟩, ver⟩ := s
  by_cases hns : rns = "" <;> by_cases hin : iname = "" <;>
    by_cases hpp : ipull = (none : Option String) <;> by_cases hver : ver = "" <;>
    by_cases hcr : cr.ns = "" <;> by_cases hfd : f dt = "" <;> by_cases hfv : f ver = "" <;>
    simp_all [v1alpha1.SetDatabaseSpecDefaults]

/-- C9 witness: an empty ref namespace is filled with the CR's own
namespace; a non-empty one is preserved. -/
theorem setDatabaseSpecDefaults_idempotent_witness :
    (v1alpha1.SetDatabaseSpecDefaults id "latest"
        ⟨"d", "prod", ⟨1, ⟨"s", ""⟩, ⟨"", none⟩, ""⟩, ⟨"", []⟩⟩
        ⟨1, ⟨"s", ""⟩, ⟨"", none⟩, ""⟩).storageClusterRef.ns = "prod"
    ∧ (v1alpha1.SetDatabaseSpecDefaults id "latest"
        ⟨"d", "prod", ⟨1, ⟨"s", "other"⟩, ⟨"img", some "Never"⟩, ""⟩, ⟨"", []⟩⟩
        ⟨1, ⟨"s", "other"⟩, ⟨"img", some "Never"⟩, ""⟩).storageClusterRef = ⟨"s", "other"⟩ :=
  ⟨(setDatabaseSpecDefaults_idempotent id "latest" _ _).2.2.2.2 rfl,
   (setDatabaseSpecDefaults_idempotent id "latest" _ _).2.1 (by decide)⟩

/-- C1: with `StorageInitialized=True` in the condition sequence, the
bootstrap phase performs zero remote command invocations and returns
continue, leaving the store and the in-memory status unchanged. -/
theorem runDefineBoxScript_noop_when_initialized (eenv : storage.ExecEnv) (kv : KVEnv)
    (store b : Storage)
    (h : isStatusConditionTrue b.status.conditions StorageInitializedCondition = true) :
    storage.runDefineBoxScript eenv kv store b = ⟨Controllers.Ok, store, b, 0⟩ := by
  simp [storage.runDefineBoxScript, h]

/-- C1 witness. -/
theorem runDefineBoxScript_noop_when_initialized_witness :
    isStatusConditionTrue [⟨"StorageInitialized", "True", "r", "m"⟩] StorageInitializedCondition = true
    ∧ storage.runDefineBoxScript ⟨some "cmd failed", some "cmd failed"⟩ ⟨true, true⟩
        ⟨"s", "n", ⟨3⟩, ⟨"Ready", [⟨"StorageInitialized", "True", "r", "m"⟩]⟩⟩
        ⟨"s", "n", ⟨3⟩, ⟨"Ready", [⟨"StorageInitialized", "True", "r", "m"⟩]⟩⟩ =
      ⟨Controllers.Ok, ⟨"s", "n", ⟨3⟩, ⟨"Ready", [⟨"StorageInitialized", "True", "r", "m"⟩]⟩⟩,
        ⟨"s", "n", ⟨3⟩, ⟨"Ready", [⟨"StorageInitialized", "True", "r", "m"⟩]⟩⟩, 0⟩ :=
  ⟨by decide, runDefineBoxScript_noop_when_initialized _ _ _ _ (by decide)⟩

/-- C7: the health-check phase mutates no status field in any outcome: a
non-nil probe outcome yields exactly a 30-second requeue and a nil
outcome yields continue, the store and working copy unchanged in both
cases. -/
theorem waitForHealthCheck_frame (e : String) (store b : Storage) :
    storage.waitForHealthCheck (some e) store b =
      ⟨Controllers.RequeueAfter 30 (some e), store, b⟩
    ∧ storage.waitForHealthCheck none store b = ⟨Controllers.Ok, store, b⟩ :=
  ⟨rfl, rfl⟩

/-- C2: with the workload object present and the pod list and status
writes succeeding, a running-pod count different from `Spec.Nodes`
persists `State=Provisioning` and requeues after 10s, while a matching
count with `StorageInitialized=True` and `State != Ready` persists
`State=Ready` and continues. -/
theorem storage_waitForScale_behaviour (sts : StatefulSet) (pods : List Pod) (kv : KVEnv)
    (store b : Storage) (hkv1 : kv.crGetErr = false) (hkv2 : kv.statusUpdateErr = false) :
    (((pods.filter (fun p => p.phase == "Running")).length : Int) ≠ b.spec.nodes →
      (storage.waitForStatefulSetToScale ⟨.found sts, .ok pods⟩ kv store b).res =
          Controllers.RequeueAfter 10 none
      ∧ (storage.waitForStatefulSetToScale ⟨.found sts, .ok pods⟩ kv store b).store.status.state =
          "Provisioning"
      ∧ (storage.waitForStatefulSetToScale ⟨.found sts, .ok pods⟩ kv store b).b.status.state =
          "Provisioning")
    ∧ (((pods.filter (fun p => p.phase == "Running")).length : Int) = b.spec.nodes →
        isStatusConditionTrue b.status.conditions StorageInitializedCondition = true →
        b.status.state ≠ "Ready" →
        (storage.waitForStatefulSetToScale ⟨.found sts, .ok pods⟩ kv store b).res = Controllers.Ok
        ∧ (storage.waitForStatefulSetToScale ⟨.found sts, .ok pods⟩ kv store b).store.status.state =
            "Ready"
        ∧ (storage.waitForStatefulSetToScale ⟨.found sts, .ok pods⟩ kv store b).b.status.state =
            "Ready") := by
  constructor
  · intro hne
    simp [storage.waitForStatefulSetToScale, storage.setState, hkv1, hkv2, hne]
  · intro heq hcond hstate
    simp [storage.waitForStatefulSetToScale, storage.setState, hkv1, hkv2, heq, hcond, hstate]

/-- C2 witness: zero running pods with one desired requeues at 10s in
`Provisioning`; a matching count with the condition true reaches
`Ready`. -/
theorem storage_waitForScale_behaviour_witness :
    ((storage.waitForStatefulSetToScale ⟨.found ⟨1⟩, .ok []⟩ ⟨false, false⟩
        ⟨"s", "n", ⟨1⟩, ⟨"", []⟩⟩ ⟨"s", "n", ⟨1⟩, ⟨"", []⟩⟩).res =
      Controllers.RequeueAfter 10 none
    ∧ (storage.waitForStatefulSetToScale ⟨.found ⟨1⟩, .ok []⟩ ⟨false, false⟩
        ⟨"s", "n", ⟨1⟩, ⟨"", []⟩⟩ ⟨"s", "n", ⟨1⟩, ⟨"", []⟩⟩).store.status.state = "Provisioning")
    ∧ ((storage.waitForStatefulSetToScale ⟨.found ⟨1⟩, .ok [⟨"Running"⟩]⟩ ⟨false, false⟩
        ⟨"s", "n", ⟨1⟩, ⟨"Provisioning", [⟨"StorageInitialized", "True", "r", "m"⟩]⟩⟩
        ⟨"s", "n", ⟨1⟩, ⟨"Provisioning", [⟨"StorageInitialized", "True", "r", "m"⟩]⟩⟩).res =
      Controllers.Ok
    ∧ (storage.waitForStatefulSetToScale ⟨.found ⟨1⟩, .ok [⟨"Running"⟩]⟩ ⟨false, false⟩
        ⟨"s", "n", ⟨1⟩, ⟨"Provisioning", [⟨"StorageInitialized", "True", "r", "m"⟩]⟩⟩
        ⟨"s", "n", ⟨1⟩, ⟨"Provisioning", [⟨"StorageInitialized", "True", "r", "m"⟩]⟩⟩).store.status.state =
      "Ready") := by
  constructor
  · have h := (storage_waitForScale_behaviour ⟨1⟩ [] ⟨false, false⟩
      ⟨"s", "n", ⟨1⟩, ⟨"", []⟩⟩ ⟨"s", "n", ⟨1⟩, ⟨"", []⟩⟩ rfl rfl).1 (by decide)
    exact ⟨h.1, h.2.1⟩
  · have h := (storage_waitForScale_behaviour ⟨1⟩ [⟨"Running"⟩] ⟨false, false⟩
      ⟨"s", "n", ⟨1⟩, ⟨"Provisioning", [⟨"StorageInitialized", "True", "r", "m"⟩]⟩⟩
      ⟨"s", "n", ⟨1⟩, ⟨"Provisioning", [⟨"StorageInitialized", "True", "r", "m"⟩]⟩⟩ rfl rfl).2
      (by decide) (by decide) (by decide)
    exact ⟨h.1, h.2.1⟩

/-- C10: when both bootstrap commands succeed but the status persist
fails, the bootstrap phase returns an error with no requeue delay, the
`StorageInitialized` condition is not durably recorded, and a later
`Sync` invocation (whose earlier phases all pass) re-executes both remote
commands. -/
theorem runDefineBoxScript_persist_failure (eenv : storage.ExecEnv) (kv : KVEnv)
    (store : Storage) (env2 : storage.StorageEnv) (children : CStore)
    (h1 : eenv.exec1Err = none) (h2 : eenv.exec2Err = none)
    (hkv : kv.crGetErr = true ∨ kv.statusUpdateErr = true)
    (hcond : isStatusConditionTrue store.status.conditions StorageInitializedCondition = false)
    (hsts : env2.scale.stsGet = .notFound) (hbuild : env2.builders = [])
    (hhealth : env2.healthErr = none)
    (he1 : env2.execEnv.exec1Err = none) (he2 : env2.execEnv.exec2Err = none) :
    (storage.runDefineBoxScript eenv kv store store).res.err.isSome = true
    ∧ (storage.runDefineBoxScript eenv kv store store).res.result.requeue = false
    ∧ (storage.runDefineBoxScript eenv kv store store).res.result.requeueAfter = 0
    ∧ (storage.runDefineBoxScript eenv kv store store).store = store
    ∧ (storage.runDefineBoxScript eenv kv store store).execCalls = 2
    ∧ (storage.Sync env2 (storage.runDefineBoxScript eenv kv store store).store children).execCalls
        = 2 := by
  obtain ⟨⟨sg, pl⟩, kvS, bl, he, ⟨x1, x2⟩, kvI⟩ := env2
  obtain ⟨e1, e2⟩ := eenv
  simp only [storage.ScaleEnv.stsGet] at hsts
  simp only at hbuild hhealth he1 he2 h1 h2
  subst hsts hbuild hhealth he1 he2 h1 h2
  rcases hkv with hk | hk <;>
    by_cases hkc : kv.crGetErr <;>
    by_cases hkI1 : kvI.crGetErr <;>
    by_cases hkI2 : kvI.statusUpdateErr <;>
    simp_all [storage.Sync, storage.runDefineBoxScript, storage.waitForStatefulSetToScale,
      storage.waitForHealthCheck, handleResourcesSync, resourcesSyncLoop, storage.setState,
      Controllers.Ok, Controllers.NoRequeue, Controllers.RequeueImmediately, Outcome.stops,
      CtrlResult.IsZero]

/-- C10 witness. -/
theorem runDefineBoxScript_persist_failure_witness :
    (storage.runDefineBoxScript ⟨none, none⟩ ⟨false, true⟩ ⟨"s", "n", ⟨1⟩, ⟨"", []⟩⟩
        ⟨"s", "n", ⟨1⟩, ⟨"", []⟩⟩).res.err.isSome = true
    ∧ (storage.runDefineBoxScript ⟨none, none⟩ ⟨false, true⟩ ⟨"s", "n", ⟨1⟩, ⟨"", []⟩⟩
        ⟨"s", "n", ⟨1⟩, ⟨"", []⟩⟩).store = ⟨"s", "n", ⟨1⟩, ⟨"", []⟩⟩
    ∧ (storage.Sync ⟨⟨.notFound, .ok []⟩, ⟨false, false⟩, [], none, ⟨none, none⟩, ⟨false, false⟩⟩
        (storage.runDefineBoxScript ⟨none, none⟩ ⟨false, true⟩ ⟨"s", "n", ⟨1⟩, ⟨"", []⟩⟩
          ⟨"s", "n", ⟨1⟩, ⟨"", []⟩⟩).store (fun _ => none)).execCalls = 2 := by
  have h := runDefineBoxScript_persist_failure ⟨none, none⟩ ⟨false, true⟩
    ⟨"s", "n", ⟨1⟩, ⟨"", []⟩⟩
    ⟨⟨.notFound, .ok []⟩, ⟨false, false⟩, [], none, ⟨none, none⟩, ⟨false, false⟩⟩ (fun _ => none)
    rfl rfl (Or.inr rfl) (by decide) rfl rfl rfl rfl rfl
  exact ⟨h.1, h.2.2.2.1, h.2.2.2.2.2⟩

/-- C4: a Database whose referenced Storage is absent, unfetchable, or
not `Ready` stops at the dependency-wait phase with a 60-second requeue;
the scale-wait, resource-sync and tenant-creation phases are not reached,
the persisted Database (its `State` in particular) is unchanged, and no
tenant call or child create happens. -/
theorem database_dependency_gating (env : database.DbEnv) (store : Database) (children : CStore)
    (h : ∀ f, env.storageGet = Except.ok f → f.status.state ≠ "Ready") :
    (database.Sync env store children).res.result.requeueAfter = 60
    ∧ (database.Sync env store children).res.result.requeue = false
    ∧ (database.Sync env store children).reachedScale = false
    ∧ (database.Sync env store children).reachedResourcesSync = false
    ∧ (database.Sync env store children).reachedTenant = false
    ∧ (database.Sync env store children).store = store
    ∧ (database.Sync env store children).tenantCalls = 0
    ∧ (database.Sync env store children).creates = 0 := by
  obtain ⟨kv0, sg, sts, kvS, bl, te, kt1, kt2⟩ := env
  cases sg with
  | error e =>
    simp [database.Sync, database.waitForClusterResource, Outcome.stops, CtrlResult.IsZero,
      Controllers.RequeueAfter, database.StorageAwaitRequeueDelay]
  | ok f =>
    have hne := h f rfl
    simp [database.Sync, database.waitForClusterResource, Outcome.stops, CtrlResult.IsZero,
      Controllers.RequeueAfter, database.StorageAwaitRequeueDelay, bne_iff_ne, hne]

/-- C4 witness: a missing Storage resource yields a 60s requeue with the
Database state untouched. -/
theorem database_dependency_gating_witness :
    (database.Sync ⟨⟨false, false⟩, .error "storage not found", .notFound, ⟨false, false⟩, [],
        none, ⟨false, false⟩, ⟨false, false⟩⟩
      ⟨"d", "n", ⟨1, ⟨"s", "n"⟩, ⟨"img", some "IfNotPresent"⟩, ""⟩, ⟨"", []⟩⟩
      (fun _ => none)).res.result.requeueAfter = 60
    ∧ (database.Sync ⟨⟨false, false⟩, .error "storage not found", .notFound, ⟨false, false⟩, [],
        none, ⟨false, false⟩, ⟨false, false⟩⟩
      ⟨"d", "n", ⟨1, ⟨"s", "n"⟩, ⟨"img", some "IfNotPresent"⟩, ""⟩, ⟨"", []⟩⟩
      (fun _ => none)).store =
      ⟨"d", "n", ⟨1, ⟨"s", "n"⟩, ⟨"img", some "IfNotPresent"⟩, ""⟩, ⟨"", []⟩⟩
    ∧ (database.Sync ⟨⟨false, false⟩, .error "storage not found", .notFound, ⟨false, false⟩, [],
        none, ⟨false, false⟩, ⟨false, false⟩⟩
      ⟨"d", "n", ⟨1, ⟨"s", "n"⟩, ⟨"img", some "IfNotPresent"⟩, ""⟩, ⟨"", []⟩⟩
      (fun _ => none)).tenantCalls = 0 := by
  have h := database_dependency_gating
    ⟨⟨false, false⟩, .error "storage not found", .notFound, ⟨false, false⟩, [],
      none, ⟨false, false⟩, ⟨false, false⟩⟩
    ⟨"d", "n", ⟨1, ⟨"s", "n"⟩, ⟨"img", some "IfNotPresent"⟩, ""⟩, ⟨"", []⟩⟩
    (fun _ => none) (by intro f hf; simp at hf)
  exact ⟨h.1, h.2.2.2.2.2.1, h.2.2.2.2.2.2.1⟩

/-- C8 counterexample: a pod-list failure in the storage wait-for-scale
phase returns the error with `Requeue=false` and `RequeueAfter=0` — a
requeue request carrying no delay, so the claim that such failures always
produce a timed requeue is false on this input. -/
theorem storage_scale_list_error_untimed :
    (storage.waitForStatefulSetToScale ⟨.found ⟨3⟩, .error "disk read failure"⟩ ⟨false, false⟩
        ⟨"s", "n", ⟨3⟩, ⟨"", []⟩⟩ ⟨"s", "n", ⟨3⟩, ⟨"", []⟩⟩).res.err = some "disk read failure"
    ∧ (storage.waitForStatefulSetToScale ⟨.found ⟨3⟩, .error "disk read failure"⟩ ⟨false, false⟩
        ⟨"s", "n", ⟨3⟩, ⟨"", []⟩⟩ ⟨"s", "n", ⟨3⟩, ⟨"", []⟩⟩).res.result.requeueAfter = 0
    ∧ (storage.waitForStatefulSetToScale ⟨.found ⟨3⟩, .error "disk read failure"⟩ ⟨false, false⟩
        ⟨"s", "n", ⟨3⟩, ⟨"", []⟩⟩ ⟨"s", "n", ⟨3⟩, ⟨"", []⟩⟩).res.result.requeue = false := by
  refine ⟨rfl, rfl, rfl⟩

/-- C8 amended: remote command failures in the bootstrap phase, negative
health probes, and tenant-creation failures cause timed 30s requeues, but
a workload get failure or pod-list failure in the wait-for-scale phase
returns the error with no requeue delay (untimed, framework backoff);
every failure is returned as a value, never a crash. -/
theorem transient_errors_requeue_policy (e e2 : String) (sts : StatefulSet)
    (pl : Except String (List Pod)) (kv kv2 : KVEnv) (store b : Storage)
    (store2 db : Database) (x2 : Option String)
    (hcond : isStatusConditionTrue b.status.conditions StorageInitializedCondition = false)
    (hkv1 : kv.crGetErr = false) (hkv2 : kv.statusUpdateErr = false) :
    (storage.waitForStatefulSetToScale ⟨.fetchErr e, pl⟩ kv store b).res = Controllers.NoRequeue e
    ∧ (storage.waitForStatefulSetToScale ⟨.found sts, .error e⟩ kv store b).res =
        Controllers.NoRequeue e
    ∧ (Controllers.NoRequeue e).result.requeueAfter = 0
    ∧ (storage.waitForHealthCheck (some e) store b).res = Controllers.RequeueAfter 30 (some e)
    ∧ (storage.runDefineBoxScript ⟨some e2, x2⟩ kv store b).res =
        Controllers.RequeueAfter 30 (some e2)
    ∧ (database.handleTenantCreation (some e2) kv kv2 store2 db).res =
        Controllers.RequeueAfter 30 (some e2) := by
  refine ⟨rfl, rfl, rfl, rfl, ?_, ?_⟩
  · simp [storage.runDefineBoxScript, hcond]
  · simp [database.handleTenantCreation, database.setState, hkv1, hkv2,
      database.TenantCreationRequeueDelay]

/-- C8 amended witness. -/
theorem transient_errors_requeue_policy_witness :
    (storage.waitForStatefulSetToScale ⟨.fetchErr "io", .ok []⟩ ⟨false, false⟩
        ⟨"s", "n", ⟨1⟩, ⟨"", []⟩⟩ ⟨"s", "n", ⟨1⟩, ⟨"", []⟩⟩).res = Controllers.NoRequeue "io"
    ∧ (storage.runDefineBoxScript ⟨some "cmd", none⟩ ⟨false, false⟩ ⟨"s", "n", ⟨1⟩, ⟨"", []⟩⟩
        ⟨"s", "n", ⟨1⟩, ⟨"", []⟩⟩).res = Controllers.RequeueAfter 30 (some "cmd")
    ∧ (database.handleTenantCreation (some "cms down") ⟨false, false⟩ ⟨false, false⟩
        ⟨"d", "n", ⟨1, ⟨"s", "n"⟩, ⟨"i", none⟩, ""⟩, ⟨"", []⟩⟩
        ⟨"d", "n", ⟨1, ⟨"s", "n"⟩, ⟨"i", none⟩, ""⟩, ⟨"", []⟩⟩).res =
        Controllers.RequeueAfter 30 (some "cms down") := by
  have h := transient_errors_requeue_policy "io" "cmd" ⟨1⟩ (.ok []) ⟨false, false⟩ ⟨false, false⟩
    ⟨"s", "n", ⟨1⟩, ⟨"", []⟩⟩ ⟨"s", "n", ⟨1⟩, ⟨"", []⟩⟩
    ⟨"d", "n", ⟨1, ⟨"s", "n"⟩, ⟨"i", none⟩, ""⟩, ⟨"", []⟩⟩
    ⟨"d", "n", ⟨1, ⟨"s", "n"⟩, ⟨"i", none⟩, ""⟩, ⟨"", []⟩⟩ none (by decide) rfl rfl
  have h2 := transient_errors_requeue_policy "io" "cms down" ⟨1⟩ (.ok []) ⟨false, false⟩
    ⟨false, false⟩ ⟨"s", "n", ⟨1⟩, ⟨"", []⟩⟩ ⟨"s", "n", ⟨1⟩, ⟨"", []⟩⟩
    ⟨"d", "n", ⟨1, ⟨"s", "n"⟩, ⟨"i", none⟩, ""⟩, ⟨"", []⟩⟩
    ⟨"d", "n", ⟨1, ⟨"s", "n"⟩, ⟨"i", none⟩, ""⟩, ⟨"", []⟩⟩ none (by decide) rfl rfl
  exact ⟨h.1, h.2.2.2.2.1, h2.2.2.2.2.2⟩

/-- C3 counterexample: with the workload reporting `Status.Replicas = 1 =
Spec.Nodes` but zero pods in a Running phase, the implemented Database
wait-for-scale phase continues, while the claimed pattern (counting
running pods, as the Storage phase does) would persist Provisioning and
requeue after 10s — the two disagree, so the phases are not identical in
that respect. -/
theorem database_scale_counts_replicas_not_pods :
    (database.waitForStatefulSetToScale (.found ⟨1⟩) ⟨false, false⟩
        ⟨"d", "n", ⟨1, ⟨"s", "n"⟩, ⟨"i", none⟩, ""⟩, ⟨"", []⟩⟩
        ⟨"d", "n", ⟨1, ⟨"s", "n"⟩, ⟨"i", none⟩, ""⟩, ⟨"", []⟩⟩).res = Controllers.Ok
    ∧ (databaseScalePerSpec (.found ⟨1⟩) (.ok []) ⟨false, false⟩
        ⟨"d", "n", ⟨1, ⟨"s", "n"⟩, ⟨"i", none⟩, ""⟩, ⟨"", []⟩⟩
        ⟨"d", "n", ⟨1, ⟨"s", "n"⟩, ⟨"i", none⟩, ""⟩, ⟨"", []⟩⟩).res =
      Controllers.RequeueAfter 10 none
    ∧ (database.waitForStatefulSetToScale (.found ⟨1⟩) ⟨false, false⟩
        ⟨"d", "n", ⟨1, ⟨"s", "n"⟩, ⟨"i", none⟩, ""⟩, ⟨"", []⟩⟩
        ⟨"d", "n", ⟨1, ⟨"s", "n"⟩, ⟨"i", none⟩, ""⟩, ⟨"", []⟩⟩).res ≠
      (databaseScalePerSpec (.found ⟨1⟩) (.ok []) ⟨false, false⟩
        ⟨"d", "n", ⟨1, ⟨"s", "n"⟩, ⟨"i", none⟩, ""⟩, ⟨"", []⟩⟩
        ⟨"d", "n", ⟨1, ⟨"s", "n"⟩, ⟨"i", none⟩, ""⟩, ⟨"", []⟩⟩).res :=
  ⟨rfl, rfl, by decide⟩

/-- C3 amended: the Database wait-for-scale phase mirrors the Storage
phase's structure — Provisioning persisted and a fixed 10-second requeue
on mismatch, Ready-transition gated on `TenantInitialized=True` — except
that it compares the workload object's reported replica count
(`Status.Replicas`) to `Spec.Nodes` instead of counting member pods in a
Running phase. -/
theorem database_waitForScale_behaviour (sts : StatefulSet) (kv : KVEnv) (store db : Database)
    (hkv1 : kv.crGetErr = false) (hkv2 : kv.statusUpdateErr = false) :
    (sts.statusReplicas ≠ db.spec.nodes →
      (database.waitForStatefulSetToScale (.found sts) kv store db).res =
          Controllers.RequeueAfter 10 none
      ∧ (database.waitForStatefulSetToScale (.found sts) kv store db).store.status.state =
          "Provisioning"
      ∧ (database.waitForStatefulSetToScale (.found sts) kv store db).db.status.state =
          "Provisioning")
    ∧ (sts.statusReplicas = db.spec.nodes →
        isStatusConditionTrue db.status.conditions database.ConditionTenantInitialized = true →
        db.status.state ≠ "Ready" →
        (database.waitForStatefulSetToScale (.found sts) kv store db).res = Controllers.Ok
        ∧ (database.waitForStatefulSetToScale (.found sts) kv store db).store.status.state =
            "Ready"
        ∧ (database.waitForStatefulSetToScale (.found sts) kv store db).db.status.state =
            "Ready") := by
  constructor
  · intro hne
    simp [database.waitForStatefulSetToScale, database.setState, hkv1, hkv2, hne,
      database.DefaultRequeueDelay]
  · intro heq hcond hstate
    simp [database.waitForStatefulSetToScale, database.setState, hkv1, hkv2, heq, hcond, hstate]

/-- C3 amended witness. -/
theorem database_waitForScale_behaviour_witness :
    ((database.waitForStatefulSetToScale (.found ⟨0⟩) ⟨false, false⟩
        ⟨"d", "n", ⟨1, ⟨"s", "n"⟩, ⟨"i", none⟩, ""⟩, ⟨"", []⟩⟩
        ⟨"d", "n", ⟨1, ⟨"s", "n"⟩, ⟨"i", none⟩, ""⟩, ⟨"", []⟩⟩).res =
      Controllers.RequeueAfter 10 none)
    ∧ ((database.waitForStatefulSetToScale (.found ⟨1⟩) ⟨false, false⟩
        ⟨"d", "n", ⟨1, ⟨"s", "n"⟩, ⟨"i", none⟩, ""⟩,
          ⟨"Provisioning", [⟨"TenantInitialized", "True", "r", "m"⟩]⟩⟩
        ⟨"d", "n", ⟨1, ⟨"s", "n"⟩, ⟨"i", none⟩, ""⟩,
          ⟨"Provisioning", [⟨"TenantInitialized", "True", "r", "m"⟩]⟩⟩).store.status.state =
      "Ready") := by
  constructor
  · exact ((database_waitForScale_behaviour ⟨0⟩ ⟨false, false⟩
      ⟨"d", "n", ⟨1, ⟨"s", "n"⟩, ⟨"i", none⟩, ""⟩, ⟨"", []⟩⟩
      ⟨"d", "n", ⟨1, ⟨"s", "n"⟩, ⟨"i", none⟩, ""⟩, ⟨"", []⟩⟩ rfl rfl).1 (by decide)).1
  · exact ((database_waitForScale_behaviour ⟨1⟩ ⟨false, false⟩
      ⟨"d", "n", ⟨1, ⟨"s", "n"⟩, ⟨"i", none⟩, ""⟩,
        ⟨"Provisioning", [⟨"TenantInitialized", "True", "r", "m"⟩]⟩⟩
      ⟨"d", "n", ⟨1, ⟨"s", "n"⟩, ⟨"i", none⟩, ""⟩,
        ⟨"Provisioning", [⟨"TenantInitialized", "True", "r", "m"⟩]⟩⟩ rfl rfl).2
      (by decide) (by decide) (by decide)).2.1

/-- A successful `createOrUpdate` leaves the key mapped to the built
object and every other key untouched. -/
theorem createOrUpdate_ok_spec (s : CStore) (k : String) (bu : Except String Obj)
    (r : OperationResult) (s2 : CStore) (h : createOrUpdate s k bu = .ok (r, s2)) :
    ∃ obj, bu = .ok obj ∧ s2 k = some obj ∧ ∀ k2, k2 ≠ k → s2 k2 = s k2 := by
  cases hs : s k with
  | none =>
    cases hb : bu with
    | error e => simp [createOrUpdate, hs, hb] at h
    | ok obj =>
      simp only [createOrUpdate, hs, hb, Except.ok.injEq, Prod.mk.injEq] at h
      obtain ⟨hr, hs2⟩ := h
      subst hs2
      exact ⟨obj, rfl, by simp, fun k2 hk2 => by simp [hk2]⟩
  | some v =>
    cases hb : bu with
    | error e => simp [createOrUpdate, hs, hb] at h
    | ok obj =>
      by_cases hov : obj = v
      · simp only [createOrUpdate, hs, hb, hov, if_pos, Except.ok.injEq, Prod.mk.injEq] at h
        obtain ⟨hr, hs2⟩ := h
        subst hs2
        refine ⟨obj, rfl, ?_, fun k2 _ => rfl⟩
        rw [hs, hov]
      · simp only [createOrUpdate, hs, hb, hov, if_neg, Except.ok.injEq, Prod.mk.injEq,
          if_false] at h
        obtain ⟨hr, hs2⟩ := h
        subst hs2
        exact ⟨obj, rfl, by simp, fun k2 hk2 => by simp [hk2]⟩

/-- The builder loop never touches a key that no builder owns. -/
theorem resourcesSyncLoop_preserves (bs : List ResourceBuilder) (s : CStore) (k : String)
    (hk : k ∉ bs.map ResourceBuilder.key) :
    (resourcesSyncLoop bs s).2.1 k = s k := by
  induction bs generalizing s with
  | nil => rfl
  | cons b rest ih =>
    simp only [List.map_cons, List.mem_cons, not_or] at hk
    obtain ⟨hk1, hk2⟩ := hk
    cases hc : createOrUpdate s b.key b.build with
    | error e => simp [resourcesSyncLoop, hc]
    | ok p =>
      obtain ⟨r, s2⟩ := p
      obtain ⟨obj, _, _, hpres⟩ := createOrUpdate_ok_spec s b.key b.build r s2 hc
      simp only [resourcesSyncLoop, hc]
      rw [ih s2 hk2]
      exact hpres k hk1

/-- Running the builder loop a second time on the store the first run
produced performs zero creates and leaves the store unchanged. -/
theorem resourcesSyncLoop_idem (bs : List ResourceBuilder) (s : CStore)
    (hnd : (bs.map ResourceBuilder.key).Nodup) :
    (resourcesSyncLoop bs ((resourcesSyncLoop bs s).2.1)).2.1 = (resourcesSyncLoop bs s).2.1
    ∧ (resourcesSyncLoop bs ((resourcesSyncLoop bs s).2.1)).2.2 = 0 := by
  induction bs generalizing s with
  | nil => exact ⟨rfl, rfl⟩
  | cons b rest ih =>
    simp only [List.map_cons, List.nodup_cons] at hnd
    obtain ⟨hk, hnd2⟩ := hnd
    cases hc : createOrUpdate s b.key b.build with
    | error e => simp [resourcesSyncLoop, hc]
    | ok p =>
      obtain ⟨r, s2⟩ := p
      obtain ⟨obj, hbu, hs2k, hpres⟩ := createOrUpdate_ok_spec s b.key b.build r s2 hc
      have hs1k : (resourcesSyncLoop rest s2).2.1 b.key = some obj := by
        rw [resourcesSyncLoop_preserves rest s2 b.key hk]
        exact hs2k
      have hsecond : createOrUpdate ((resourcesSyncLoop rest s2).2.1) b.key b.build =
          .ok (OperationResult.opNone, (resourcesSyncLoop rest s2).2.1) := by
        rw [hbu]
        simp [createOrUpdate, hs1k]
      have hrest := ih s2 hnd2
      simp only [resourcesSyncLoop, hc]
      simp only [resourcesSyncLoop, hsecond]
      simp [hrest.1, hrest.2]

/-- C6: with the builder keys pairwise distinct, running the resource
sync twice in succession with no external change performs zero creates on
the second call and yields an identical child store; within one
error-free call, a fresh create means an immediate requeue and no create
means continue. -/
theorem handleResourcesSync_idempotent (builders : List ResourceBuilder) (s : CStore)
    (hnd : (builders.map ResourceBuilder.key).Nodup) :
    (handleResourcesSync builders (handleResourcesSync builders s).children).creates = 0
    ∧ (handleResourcesSync builders (handleResourcesSync builders s).children).children =
        (handleResourcesSync builders s).children
    ∧ ((handleResourcesSync builders s).res.err = none →
        (handleResourcesSync builders s).creates ≠ 0 →
        (handleResourcesSync builders s).res = Controllers.RequeueImmediately)
    ∧ ((handleResourcesSync builders s).res.err = none →
        (handleResourcesSync builders s).creates = 0 →
        (handleResourcesSync builders s).res = Controllers.Ok) := by
  have hch : ∀ t, (handleResourcesSync builders t).children = (resourcesSyncLoop builders t).2.1 := by
    intro t
    unfold handleResourcesSync
    rcases hl : (resourcesSyncLoop builders t).1 with _ | e <;> simp [hl]
  have hcr : ∀ t, (handleResourcesSync builders t).creates = (resourcesSyncLoop builders t).2.2 := by
    intro t
    unfold handleResourcesSync
    rcases hl : (resourcesSyncLoop builders t).1 with _ | e <;> simp [hl]
  have hidem := resourcesSyncLoop_idem builders s hnd
  refine ⟨?_, ?_, ?_, ?_⟩
  · rw [hcr, hch, hidem.2]
  · rw [hch, hch, hidem.1]
  · intro herr hcrea
    unfold handleResourcesSync at herr hcrea ⊢
    rcases hl : (resourcesSyncLoop builders s).1 with _ | e
    · simp only [hl] at herr hcrea ⊢
      simp only [hcrea, if_pos, ne_eq, not_false_iff, if_true]
    · simp [hl, Controllers.NoRequeue] at herr
  · intro herr hcrea
    unfold handleResourcesSync at herr hcrea ⊢
    rcases hl : (resourcesSyncLoop builders s).1 with _ | e
    · simp only [hl] at herr hcrea ⊢
      simp [hcrea]
    · simp [hl, Controllers.NoRequeue] at herr

/-- C6 witness: one builder, empty store — the first call creates and
requeues immediately, the second call creates nothing and is a no-op on
the store. -/
theorem handleResourcesSync_idempotent_witness :
    (handleResourcesSync [⟨"db-grpc", .ok "grpc-service"⟩]
        (handleResourcesSync [⟨"db-grpc", .ok "grpc-service"⟩] (fun _ => none)).children).creates = 0
    ∧ (handleResourcesSync [⟨"db-grpc", .ok "grpc-service"⟩]
        (handleResourcesSync [⟨"db-grpc", .ok "grpc-service"⟩] (fun _ => none)).children).children =
        (handleResourcesSync [⟨"db-grpc", .ok "grpc-service"⟩] (fun _ => none)).children
    ∧ (handleResourcesSync [⟨"db-grpc", .ok "grpc-service"⟩] (fun _ => none)).res =
        Controllers.RequeueImmediately := by
  have h := handleResourcesSync_idempotent [⟨"db-grpc", .ok "grpc-service"⟩] (fun _ => none)
    (by simp)
  exact ⟨h.1, h.2.1, h.2.2.1 rfl (by decide)⟩

/-- Store effects of the database wait-for-scale phase: a stopping
outcome leaves the store as it was or as the Provisioning write; a
continuing outcome either touches nothing or performs the Ready write,
the latter only when `TenantInitialized` is already true. -/
theorem database_scale_cases (g : GetOutcome StatefulSet) (kv : KVEnv) (st db : Database) :
    ((database.waitForStatefulSetToScale g kv st db).res.stops = true
      ∧ ((database.waitForStatefulSetToScale g kv st db).store = st
        ∨ (database.waitForStatefulSetToScale g kv st db).store =
            { st with status := ⟨"Provisioning", db.status.conditions⟩ }))
    ∨ ((database.waitForStatefulSetToScale g kv st db).res.stops = false
      ∧ (database.waitForStatefulSetToScale g kv st db).store = st
      ∧ (database.waitForStatefulSetToScale g kv st db).db = db)
    ∨ ((database.waitForStatefulSetToScale g kv st db).res.stops = false
      ∧ (database.waitForStatefulSetToScale g kv st db).store =
          { st with status := ⟨"Ready", db.status.conditions⟩ }
      ∧ (database.waitForStatefulSetToScale g kv st db).db =
          { db with status := ⟨"Ready", db.status.conditions⟩ }
      ∧ isStatusConditionTrue db.status.conditions database.ConditionTenantInitialized = true) := by
  cases g with
  | notFound => exact Or.inr (Or.inl ⟨rfl, rfl, rfl⟩)
  | fetchErr e => exact Or.inl ⟨rfl, Or.inl rfl⟩
  | found f =>
    cases hne : f.statusReplicas != db.spec.nodes with
    | true =>
      by_cases h1 : kv.crGetErr
      · exact Or.inl (by simp [database.waitForStatefulSetToScale, hne, database.setState, h1])
      · by_cases h2 : kv.statusUpdateErr
        · exact Or.inl (by
            simp [database.waitForStatefulSetToScale, hne, database.setState, h1, h2])
        · refine Or.inl ⟨?_, Or.inr ?_⟩ <;>
            simp [database.waitForStatefulSetToScale, hne, database.setState, h1, h2,
              database.DefaultRequeueDelay]
    | false =>
      cases hrd : db.status.state != "Ready" &&
          isStatusConditionTrue db.status.conditions database.ConditionTenantInitialized with
      | false =>
        refine Or.inr (Or.inl ?_)
        simp [database.waitForStatefulSetToScale, hne, hrd]
      | true =>
        have hcond : isStatusConditionTrue db.status.conditions
            database.ConditionTenantInitialized = true := by
          have hrd2 := hrd
          simp only [Bool.and_eq_true] at hrd2
          exact hrd2.2
        by_cases h1 : kv.crGetErr
        · exact Or.inl (by
            simp [database.waitForStatefulSetToScale, hne, hrd, database.setState, h1])
        · by_cases h2 : kv.statusUpdateErr
          · exact Or.inl (by
              simp [database.waitForStatefulSetToScale, hne, hrd, database.setState, h1, h2])
          · refine Or.inr (Or.inr ⟨?_, ?_, ?_, hcond⟩) <;>
              simp [database.waitForStatefulSetToScale, hne, hrd, database.setState, h1, h2]

/-- Store effects of the tenant-creation phase: it always stops, and the
store is either untouched, holds the persisted Initializing write, or
holds Initializing together with the freshly set `TenantInitialized`
condition. -/
theorem database_tenant_cases (te : Option String) (kt1 kt2 : KVEnv) (st db : Database) :
    (database.handleTenantCreation te kt1 kt2 st db).res.stops = true
    ∧ ((database.handleTenantCreation te kt1 kt2 st db).store = st
      ∨ (database.handleTenantCreation te kt1 kt2 st db).store =
          { st with status := ⟨"Initializing", db.status.conditions⟩ }
      ∨ (database.handleTenantCreation te kt1 kt2 st db).store =
          { st with status := ⟨"Initializing",
              setStatusCondition db.status.conditions database.tenantInitializedTrue⟩ }) := by
  rcases te with _ | e <;> by_cases h1 : kt1.crGetErr <;> by_cases h2 : kt1.statusUpdateErr <;>
    by_cases h3 : kt2.crGetErr <;> by_cases h4 : kt2.statusUpdateErr <;>
    simp_all [database.handleTenantCreation, database.setState,
      database.TenantCreationRequeueDelay]

/-- The persisted `Database` after one `Sync` turn is one of: unchanged;
the Provisioning write; the Ready write (only with `TenantInitialized`
already true); the Initializing write (only with the condition not yet
true); or the Initializing write together with the freshly set
`TenantInitialized` condition (only with the condition not previously
true). -/
theorem database_Sync_store_cases (env : database.DbEnv) (store : Database) (children : CStore) :
    (database.Sync env store children).store = store
    ∨ (database.Sync env store children).store =
        { store with status := ⟨"Provisioning", store.status.conditions⟩ }
    ∨ ((database.Sync env store children).store =
        { store with status := ⟨"Ready", store.status.conditions⟩ }
        ∧ isStatusConditionTrue store.status.conditions database.ConditionTenantInitialized = true)
    ∨ ((database.Sync env store children).store =
        { store with status := ⟨"Initializing", store.status.conditions⟩ }
        ∧ isStatusConditionTrue store.status.conditions database.ConditionTenantInitialized = false)
    ∨ ((database.Sync env store children).store =
        { store with status := ⟨"Initializing",
            setStatusCondition store.status.conditions database.tenantInitializedTrue⟩ }
        ∧ isStatusConditionTrue store.status.conditions database.ConditionTenantInitialized
            = false) := by
  obtain ⟨kv0, sg, sts, kvS, bl, te, kt1, kt2⟩ := env
  cases hr1 : (database.waitForClusterResource sg store).stops with
  | true =>
    left
    simp [database.Sync, hr1]
  | false =>
    rcases database_scale_cases sts kvS store store with ⟨hstop, hst⟩ | ⟨hcont, hst, hdb⟩ |
      ⟨hcont, hst, hdb, hcond⟩
    · rcases hst with hst | hst
      · left
        simp [database.Sync, hr1, hstop, hst]
      · right; left
        simp [database.Sync, hr1, hstop, hst]
    · cases hrs : (handleResourcesSync bl children).res.stops with
      | true =>
        left
        simp [database.Sync, hr1, hcont, hrs, hst]
      | false =>
        cases hT : isStatusConditionTrue store.status.conditions
            database.ConditionTenantInitialized with
        | true =>
          left
          simp [database.Sync, hr1, hcont, hrs, hdb, hT, hst]
        | false =>
          rcases database_tenant_cases te kt1 kt2 store store with ⟨htstop, hsto⟩
          rcases hsto with h | h | h
          · left
            simp [database.Sync, hr1, hcont, hrs, hdb, hst, hT, htstop, h]
          · right; right; right; left
            refine ⟨?_, rfl⟩
            simp [database.Sync, hr1, hcont, hrs, hdb, hst, hT, htstop, h]
          · right; right; right; right
            refine ⟨?_, rfl⟩
            simp [database.Sync, hr1, hcont, hrs, hdb, hst, hT, htstop, h]
    · cases hrs : (handleResourcesSync bl children).res.stops with
      | true =>
        right; right; left
        refine ⟨?_, hcond⟩
        simp [database.Sync, hr1, hcont, hrs, hst]
      | false =>
        right; right; left
        refine ⟨?_, hcond⟩
        have hTdb : isStatusConditionTrue (database.waitForStatefulSetToScale sts kvS store
            store).db.status.conditions database.ConditionTenantInitialized = true := by
          rw [hdb]
          exact hcond
        simp [database.Sync, hr1, hcont, hrs, hTdb, hst]

/-- Once the persisted `TenantInitialized` condition is true, a
control-loop turn keeps it true. -/
theorem dbStep_cond_monotone (env : database.DbEnv) (st : DbState)
    (h : isStatusConditionTrue st.cr.status.conditions database.ConditionTenantInitialized
        = true) :
    isStatusConditionTrue (dbStep env st).cr.status.conditions
        database.ConditionTenantInitialized = true := by
  have hc := database_Sync_store_cases env st.cr st.children
  simp only [dbStep]
  rcases hc with h1 | h1 | ⟨h1, _⟩ | ⟨h1, h2⟩ | ⟨h1, h2⟩
  · rw [h1]; exact h
  · rw [h1]; exact h
  · rw [h1]; exact h
  · rw [h, ] at h2; cases h2
  · rw [h, ] at h2; cases h2

/-- A turn that starts with the condition false and a state other than
`Ready` cannot end in `Ready`. -/
theorem dbStep_not_ready (env : database.DbEnv) (st : DbState)
    (hc : isStatusConditionTrue st.cr.status.conditions database.ConditionTenantInitialized
        = false)
    (hs : st.cr.status.state ≠ "Ready") :
    (dbStep env st).cr.status.state ≠ "Ready" := by
  have hca := database_Sync_store_cases env st.cr st.children
  simp only [dbStep]
  rcases hca with h1 | h1 | ⟨h1, h2⟩ | ⟨h1, _⟩ | ⟨h1, _⟩
  · rw [h1]; exact hs
  · rw [h1]; simp
  · rw [hc] at h2; cases h2
  · rw [h1]; simp
  · rw [h1]; simp

/-- A turn that makes the persisted condition true leaves the persisted
state at `Initializing`. -/
theorem dbStep_cond_set_initializing (env : database.DbEnv) (st : DbState)
    (hc : isStatusConditionTrue st.cr.status.conditions database.ConditionTenantInitialized
        = false)
    (h2 : isStatusConditionTrue (dbStep env st).cr.status.conditions
        database.ConditionTenantInitialized = true) :
    (dbStep env st).cr.status.state = "Initializing" := by
  have hca := database_Sync_store_cases env st.cr st.children
  simp only [dbStep] at h2 ⊢
  rcases hca with h1 | h1 | ⟨h1, hT⟩ | ⟨h1, _⟩ | ⟨h1, _⟩
  · rw [h1] at h2; rw [h2] at hc; cases hc
  · rw [h1] at h2; simp only at h2; rw [h2] at hc; cases hc
  · rw [hc] at hT; cases hT
  · rw [h1] at h2; simp only at h2; rw [h2] at hc; cases hc
  · rw [h1]

/-- Every state of a trace that starts with the condition true has it
true. -/
theorem dbStates_all_true (envs : List database.DbEnv) (st : DbState)
    (h : isStatusConditionTrue st.cr.status.conditions database.ConditionTenantInitialized
        = true) :
    ∀ s ∈ dbStates envs st,
      isStatusConditionTrue s.cr.status.conditions database.ConditionTenantInitialized = true := by
  induction envs generalizing st with
  | nil =>
    intro s hmem
    simp only [dbStates, List.mem_singleton] at hmem
    rw [hmem]; exact h
  | cons e es ih =>
    intro s hmem
    simp only [dbStates, List.mem_cons] at hmem
    rcases hmem with hmem | hmem
    · rw [hmem]; exact h
    · exact ih (dbStep e st) (dbStep_cond_monotone e st h) s hmem

theorem risingEdges_cons_cons (a b : Bool) (t : List Bool) :
    risingEdges (a :: b :: t) = (if !a && b then 1 else 0) + risingEdges (b :: t) := rfl

/-- An all-true boolean sequence has no rising edge. -/
theorem risingEdges_all_true : ∀ l : List Bool, (∀ b ∈ l, b = true) → risingEdges l = 0
  | [], _ => rfl
  | [_], _ => rfl
  | a :: b :: t, h => by
    have ha := h a (by simp)
    have hrest : ∀ x ∈ b :: t, x = true := fun x hx => h x (List.mem_cons_of_mem a hx)
    rw [risingEdges_cons_cons, ha, risingEdges_all_true (b :: t) hrest]
    simp

/-- Traces have a head: `dbStates` never returns the empty list, and its
head is the initial state. -/
theorem dbStates_head (envs : List database.DbEnv) (st : DbState) :
    ∃ t, dbStates envs st = st :: t := by
  cases envs <;> exact ⟨_, rfl⟩

/-- The condition sequence of a trace that starts with the condition
false shows at most one `false → true` edge. -/
theorem dbStates_risingEdges_le_one (envs : List database.DbEnv) (st : DbState)
    (h : isStatusConditionTrue st.cr.status.conditions database.ConditionTenantInitialized
        = false) :
    risingEdges ((dbStates envs st).map
      (fun s => isStatusConditionTrue s.cr.status.conditions
        database.ConditionTenantInitialized)) ≤ 1 := by
  induction envs generalizing st with
  | nil => simp [dbStates, risingEdges]
  | cons e es ih =>
    obtain ⟨t, ht⟩ := dbStates_head es (dbStep e st)
    have hmap : (dbStates (e :: es) st).map
        (fun s => isStatusConditionTrue s.cr.status.conditions
          database.ConditionTenantInitialized) =
        isStatusConditionTrue st.cr.status.conditions database.ConditionTenantInitialized ::
        isStatusConditionTrue (dbStep e st).cr.status.conditions
          database.ConditionTenantInitialized ::
        t.map (fun s => isStatusConditionTrue s.cr.status.conditions
          database.ConditionTenantInitialized) := by
      simp [dbStates, ht]
    rw [hmap, risingEdges_cons_cons]
    cases h2 : isStatusConditionTrue (dbStep e st).cr.status.conditions
        database.ConditionTenantInitialized with
    | false =>
      have hbound := ih (dbStep e st) h2
      rw [ht] at hbound
      simp only [List.map_cons] at hbound
      rw [h2] at hbound
      simp [h, h2]
      exact hbound
    | true =>
      have hzero : risingEdges ((dbStates es (dbStep e st)).map
          (fun s => isStatusConditionTrue s.cr.status.conditions
            database.ConditionTenantInitialized)) = 0 := by
        apply risingEdges_all_true
        intro b hb
        obtain ⟨s, hs, hfs⟩ := List.mem_map.mp hb
        rw [← hfs]
        exact dbStates_all_true es (dbStep e st) h2 s hs
      rw [ht] at hzero
      simp only [List.map_cons] at hzero
      rw [h2] at hzero
      simp [h, h2, hzero]

/-- A trace that starts with the condition false and away from `Ready`
and ends in `Ready` visits a state persisted as `Initializing`. -/
theorem dbRun_ready_passes_initializing (envs : List database.DbEnv) (st : DbState)
    (hc : isStatusConditionTrue st.cr.status.conditions database.ConditionTenantInitialized
        = false)
    (hs : st.cr.status.state ≠ "Ready")
    (hr : (dbRun envs st).cr.status.state = "Ready") :
    (dbStates envs st).any (fun s => s.cr.status.state == "Initializing") = true := by
  induction envs generalizing st with
  | nil =>
    simp only [dbRun] at hr
    exact absurd hr hs
  | cons e es ih =>
    cases h2 : isStatusConditionTrue (dbStep e st).cr.status.conditions
        database.ConditionTenantInitialized with
    | false =>
      have hs2 := dbStep_not_ready e st hc hs
      have hrec := ih (dbStep e st) h2 hs2 (by simpa [dbRun] using hr)
      simp [dbStates, List.any_cons, hrec]
    | true =>
      have hini := dbStep_cond_set_initializing e st hc h2
      obtain ⟨t, ht⟩ := dbStates_head es (dbStep e st)
      have hany : (dbStates es (dbStep e st)).any
          (fun s => s.cr.status.state == "Initializing") = true := by
        rw [ht]
        simp [List.any_cons, hini]
      simp [dbStates, List.any_cons, hany]

/-- With `TenantInitialized` already true, a `Sync` turn never enters the
tenant-creation phase and performs no tenant call. -/
theorem database_Sync_gate (env : database.DbEnv) (store : Database) (children : CStore)
    (h : isStatusConditionTrue store.status.conditions database.ConditionTenantInitialized
        = true) :
    (database.Sync env store children).tenantCalls = 0
    ∧ (database.Sync env store children).reachedTenant = false := by
  obtain ⟨kv0, sg, sts, kvS, bl, te, kt1, kt2⟩ := env
  cases hr1 : (database.waitForClusterResource sg store).stops with
  | true => simp [database.Sync, hr1]
  | false =>
    rcases database_scale_cases sts kvS store store with ⟨hstop, _⟩ | ⟨hcont, hst, hdb⟩ |
      ⟨hcont, hst, hdb, hcond⟩
    · simp [database.Sync, hr1, hstop]
    · cases hrs : (handleResourcesSync bl children).res.stops with
      | true => simp [database.Sync, hr1, hcont, hrs]
      | false =>
        have hTdb : isStatusConditionTrue (database.waitForStatefulSetToScale sts kvS store
            store).db.status.conditions database.ConditionTenantInitialized = true := by
          rw [hdb]; exact h
        simp [database.Sync, hr1, hcont, hrs, hTdb]
    · cases hrs : (handleResourcesSync bl children).res.stops with
      | true => simp [database.Sync, hr1, hcont, hrs]
      | false =>
        have hTdb : isStatusConditionTrue (database.waitForStatefulSetToScale sts kvS store
            store).db.status.conditions database.ConditionTenantInitialized = true := by
          rw [hdb]; exact hcond
        simp [database.Sync, hr1, hcont, hrs, hTdb]

/-- C5: the tenant-creation phase is gated on `TenantInitialized` not yet
true; it sets and persists `State=Initializing` before the tenant call; a
failed call requeues after 30s with the condition untouched; a successful
call sets the condition, persists, and requeues immediately; across any
trace the persisted condition is set true at most once and a trace
reaching `Ready` from an uninitialized state passes through
`Initializing`. -/
theorem tenant_creation_one_shot
    (env1 : database.DbEnv) (store1 : Database) (children1 : CStore)
    (e : String) (kv1 kv2 : KVEnv) (store db : Database)
    (envs : List database.DbEnv) (st0 : DbState)
    (hgate : isStatusConditionTrue store1.status.conditions database.ConditionTenantInitialized
        = true)
    (hkv1a : kv1.crGetErr = false) (hkv1b : kv1.statusUpdateErr = false)
    (hkv2a : kv2.crGetErr = false) (hkv2b : kv2.statusUpdateErr = false)
    (h0 : isStatusConditionTrue st0.cr.status.conditions database.ConditionTenantInitialized
        = false)
    (hst0 : st0.cr.status.state ≠ "Ready") :
    (database.Sync env1 store1 children1).tenantCalls = 0
    ∧ (database.Sync env1 store1 children1).reachedTenant = false
    ∧ (database.handleTenantCreation (some e) kv1 kv2 store db).res =
        Controllers.RequeueAfter 30 (some e)
    ∧ (database.handleTenantCreation (some e) kv1 kv2 store db).store.status.state =
        "Initializing"
    ∧ (database.handleTenantCreation (some e) kv1 kv2 store db).store.status.conditions =
        db.status.conditions
    ∧ (database.handleTenantCreation none kv1 kv2 store db).res = Controllers.RequeueImmediately
    ∧ (database.handleTenantCreation none kv1 kv2 store db).store.status.state = "Initializing"
    ∧ isStatusConditionTrue
        (database.handleTenantCreation none kv1 kv2 store db).store.status.conditions
        database.ConditionTenantInitialized = true
    ∧ risingEdges ((dbStates envs st0).map
        (fun s => isStatusConditionTrue s.cr.status.conditions
          database.ConditionTenantInitialized)) ≤ 1
    ∧ ((dbRun envs st0).cr.status.state = "Ready" →
        (dbStates envs st0).any (fun s => s.cr.status.state == "Initializing") = true) := by
  refine ⟨(database_Sync_gate env1 store1 children1 hgate).1,
    (database_Sync_gate env1 store1 children1 hgate).2, ?_, ?_, ?_, ?_, ?_, ?_,
    dbStates_risingEdges_le_one envs st0 h0,
    fun hr => dbRun_ready_passes_initializing envs st0 h0 hst0 hr⟩
  · simp [database.handleTenantCreation, database.setState, hkv1a, hkv1b,
      database.TenantCreationRequeueDelay]
  · simp [database.handleTenantCreation, database.setState, hkv1a, hkv1b]
  · simp [database.handleTenantCreation, database.setState, hkv1a, hkv1b]
  · simp [database.handleTenantCreation, database.setState, hkv1a, hkv1b, hkv2a, hkv2b]
  · simp [database.handleTenantCreation, database.setState, hkv1a, hkv1b, hkv2a, hkv2b]
  · simp only [database.handleTenantCreation, database.setState, hkv1a, hkv1b, hkv2a, hkv2b,
      if_false, Bool.false_eq_true]
    simpa [database.tenantInitializedTrue] using
      isTrue_setStatusCondition db.status.conditions database.ConditionTenantInitialized
        "TenantInitialized" "Tenant creation is complete"

/-- C5 witness: a tenant call that fails once then succeeds, followed by
the scale phase observing the match — one persisted condition set, one
rising edge, state trace passing through Initializing. -/
theorem tenant_creation_one_shot_witness :
    (database.Sync ⟨⟨false, false⟩, .error "nf", .notFound, ⟨false, false⟩, [], none,
        ⟨false, false⟩, ⟨false, false⟩⟩
      ⟨"d", "n", ⟨1, ⟨"s", "n"⟩, ⟨"i", none⟩, ""⟩,
        ⟨"Initializing", [⟨"TenantInitialized", "True", "r", "m"⟩]⟩⟩
      (fun _ => none)).tenantCalls = 0
    ∧ (database.handleTenantCreation (some "cms down") ⟨false, false⟩ ⟨false, false⟩
        ⟨"d", "n", ⟨1, ⟨"s", "n"⟩, ⟨"i", none⟩, ""⟩, ⟨"", []⟩⟩
        ⟨"d", "n", ⟨1, ⟨"s", "n"⟩, ⟨"i", none⟩, ""⟩, ⟨"", []⟩⟩).res =
      Controllers.RequeueAfter 30 (some "cms down")
    ∧ risingEdges ((dbStates
        [⟨⟨false, false⟩, .ok ⟨"s", "n", ⟨1⟩, ⟨"Ready", []⟩⟩, .notFound, ⟨false, false⟩, [],
          some "cms down", ⟨false, false⟩, ⟨false, false⟩⟩,
         ⟨⟨false, false⟩, .ok ⟨"s", "n", ⟨1⟩, ⟨"Ready", []⟩⟩, .notFound, ⟨false, false⟩, [],
          none, ⟨false, false⟩, ⟨false, false⟩⟩]
        ⟨⟨"d", "n", ⟨1, ⟨"s", "n"⟩, ⟨"i", none⟩, ""⟩, ⟨"", []⟩⟩, fun _ => none⟩).map
        (fun s => isStatusConditionTrue s.cr.status.conditions
          database.ConditionTenantInitialized)) ≤ 1 := by
  have h := tenant_creation_one_shot
    ⟨⟨false, false⟩, .error "nf", .notFound, ⟨false, false⟩, [], none,
      ⟨false, false⟩, ⟨false, false⟩⟩
    ⟨"d", "n", ⟨1, ⟨"s", "n"⟩, ⟨"i", none⟩, ""⟩,
      ⟨"Initializing", [⟨"TenantInitialized", "True", "r", "m"⟩]⟩⟩
    (fun _ => none) "cms down" ⟨false, false⟩ ⟨false, false⟩
    ⟨"d", "n", ⟨1, ⟨"s", "n"⟩, ⟨"i", none⟩, ""⟩, ⟨"", []⟩⟩
    ⟨"d", "n", ⟨1, ⟨"s", "n"⟩, ⟨"i", none⟩, ""⟩, ⟨"", []⟩⟩
    [⟨⟨false, false⟩, .ok ⟨"s", "n", ⟨1⟩, ⟨"Ready", []⟩⟩, .notFound, ⟨false, false⟩, [],
      some "cms down", ⟨false, false⟩, ⟨false, false⟩⟩,
     ⟨⟨false, false⟩, .ok ⟨"s", "n", ⟨1⟩, ⟨"Ready", []⟩⟩, .notFound, ⟨false, false⟩, [],
      none, ⟨false, false⟩, ⟨false, false⟩⟩]
    ⟨⟨"d", "n", ⟨1, ⟨"s", "n"⟩, ⟨"i", none⟩, ""⟩, ⟨"", []⟩⟩, fun _ => none⟩
    (by decide) rfl rfl rfl rfl (by decide) (by decide)
  exact ⟨h.1, h.2.2.1, h.2.2.2.2.2.2.2.2.1⟩
